import Mathlib

/-!
Verification of the bash-command-server core
(`src/servers/bash-command-server/src/bash_command_server.py`).

The development shallowly embeds the two core components:

* the Safety Gate `is_command_safe`, including a faithful model of Python's
  `shlex.split` (POSIX mode, `whitespace_split=True`, no comment chars),
  which the gate uses for its leading-token check and which raises
  `ValueError` on malformed quoting; and
* the Execution Runner `execute_bash_command`, with the operating system
  (environment variables, current directory, filesystem queries, and the
  outcome of the spawned subprocess) abstracted as an oracle `World`.

Machine-level effects (actual process scheduling, byte decoding) are
abstracted: the subprocess outcome is an oracle value, and the
`kill`/`wait` cleanup on timeout is modelled as explicit transitions on a
process-status type.  All strings in the security policy are ASCII, so
Python's `str.lower` is modelled character-wise by `Char.toLower`.
-/

/-- The single-quote character `'` (code 39). -/
def squote : Char := Char.ofNat 39

/-- The double-quote character (code 34). -/
def dquote : Char := Char.ofNat 34

/-- The backslash character (code 92), `shlex`'s escape character. -/
def bslash : Char := Char.ofNat 92

/-- `shlex`'s default whitespace characters (space, tab, CR, LF). -/
def isShlexWs (c : Char) : Bool :=
  c = ' ' || c = Char.ofNat 9 || c = Char.ofNat 13 || c = Char.ofNat 10

/-- States of the `shlex` tokenizer automaton (POSIX mode,
`whitespace_split=True`):  `ws` is CPython's state `' '`, `word` is state
`'a'`, `sq`/`dq` are the two quote states, and `escWord`/`escDq` are the
escape state with `escapedstate = 'a'` and `escapedstate = '"'`
respectively (single quotes are not in `escapedquotes`, so no escape state
arises inside them). -/
inductive TokState where
  | ws
  | word
  | sq
  | dq
  | escWord
  | escDq
deriving Repr, DecidableEq

/-- One call of `shlex.read_token`: consumes characters, returning either
`ValueError`'s message (`.error`), or the token read together with the
remaining characters; `none` as the token means end of input (CPython's
posix `None` result).  `tok` is the token accumulated so far and `quoted`
the flag recording whether a quote was entered. -/
def readTok : List Char → TokState → String → Bool → Except String (Option String × List Char)
  | [], .ws, tok, quoted =>
      .ok (if !quoted && tok = "" then none else some tok, [])
  | [], .word, tok, quoted =>
      .ok (if !quoted && tok = "" then none else some tok, [])
  | [], .sq, _, _ => .error "No closing quotation"
  | [], .dq, _, _ => .error "No closing quotation"
  | [], .escWord, _, _ => .error "No escaped character"
  | [], .escDq, _, _ => .error "No escaped character"
  | c :: cs, .ws, tok, quoted =>
      if isShlexWs c then
        if tok ≠ "" || quoted then .ok (some tok, cs)
        else readTok cs .ws tok quoted
      else if c = bslash then readTok cs .escWord tok quoted
      else if c = squote then readTok cs .sq tok quoted
      else if c = dquote then readTok cs .dq tok quoted
      else readTok cs .word (tok.push c) quoted
  | c :: cs, .word, tok, quoted =>
      if isShlexWs c then
        if tok ≠ "" || quoted then .ok (some tok, cs)
        else readTok cs .ws tok quoted
      else if c = squote then readTok cs .sq tok quoted
      else if c = dquote then readTok cs .dq tok quoted
      else if c = bslash then readTok cs .escWord tok quoted
      else readTok cs .word (tok.push c) quoted
  | c :: cs, .sq, tok, _ =>
      if c = squote then readTok cs .word tok true
      else readTok cs .sq (tok.push c) true
  | c :: cs, .dq, tok, _ =>
      if c = dquote then readTok cs .word tok true
      else if c = bslash then readTok cs .escDq tok true
      else readTok cs .dq (tok.push c) true
  | c :: cs, .escWord, tok, quoted => readTok cs .word (tok.push c) quoted
  | c :: cs, .escDq, tok, quoted =>
      if c = bslash || c = dquote then readTok cs .dq (tok.push c) quoted
      else readTok cs .dq ((tok.push bslash).push c) quoted

/-- The token-collecting loop of `shlex.split`.  `fuel` bounds the number
of iterations; every emitted token consumes at least one input character,
so `fuel = length + 1` never runs out — the fuel-exhaustion branch errs on
the `ValueError` side and is unreachable at that fuel. -/
def splitLoop : Nat → List Char → List String → Except String (List String)
  | 0, _, _ => .error "No closing quotation"
  | fuel + 1, cs, acc =>
      match readTok cs .ws "" false with
      | .error e => .error e
      | .ok (none, _) => .ok acc.reverse
      | .ok (some t, rest) => splitLoop fuel rest (t :: acc)

/-- Python's `shlex.split(s)` (POSIX, whitespace-split, no comments):
the token list, or the `ValueError` message on malformed quoting. -/
def shlexSplit (s : String) : Except String (List String) :=
  splitLoop (s.length + 1) s.data []

/-! ## Security policy (module-level constants of the server) -/

/-- `MAX_COMMAND_LENGTH = 1000`. -/
def MAX_COMMAND_LENGTH : Nat := 1000

/-- `TIMEOUT_SECONDS = 30`. -/
def TIMEOUT_SECONDS : Nat := 30

/-- `BLOCKED_COMMANDS`: the first-token denylist (a Python `set`;
membership is string equality, so a list is an adequate model). -/
def BLOCKED_COMMANDS : List String :=
  ["rm", "rmdir", "del", "format", "fdisk", "mkfs",
   "dd", "shutdown", "reboot", "halt", "poweroff",
   "sudo", "su", "passwd", "chown", "chmod",
   "crontab", "at", "batch", "systemctl", "service"]

/-- `BLOCKED_PATTERNS`: the ordered substring denylist. -/
def BLOCKED_PATTERNS : List String :=
  ["&&", "||", ";", "|", ">", ">>", "<", "`", "$(",
   "eval", "exec", "source", ".", "wget", "curl -X"]

/-- The "suspicious characters" of the final gate check:
`'$('`, backtick, and the two brace characters. -/
def DANGEROUS_CHARS : List String := ["$(", "`", "\x7b", "\x7d"]

/-- Whether `needle` is an initial segment of `hay`. -/
def leadsList : List Char → List Char → Bool
  | [], _ => true
  | _ :: _, [] => false
  | a :: as, b :: bs => a == b && leadsList as bs

/-- Whether `needle` occurs contiguously anywhere in `hay`. -/
def occursIn (needle hay : List Char) : Bool :=
  match hay with
  | [] => leadsList needle []
  | _ :: bs => leadsList needle hay || occursIn needle bs

/-- Python's `needle in hay` substring test on strings. -/
def pyContains (hay needle : String) : Bool :=
  occursIn needle.data hay.data

/-- Python's `str.lower()` (the policy strings and shell metacharacters
are all ASCII, where it is exactly `Char.toLower` on each character). -/
def pyLower (s : String) : String :=
  String.mk (s.data.map Char.toLower)

/-- The pattern and dangerous-character checks of `is_command_safe`
(lines 52-61): the `for pattern in BLOCKED_PATTERNS` loop with early
return is the first match in list order, then the `any(char in command
for char in [...])` check, else safe. -/
def patternAndCharCheck (command : String) : Bool × String :=
  match BLOCKED_PATTERNS.find? (fun p => pyContains command p) with
  | some p => (false, "Blocked pattern detected: " ++ p)
  | none =>
      if DANGEROUS_CHARS.any (fun c => pyContains command c) then
        (false, "Command contains potentially dangerous characters")
      else
        (true, "")

/-- The Safety Gate `is_command_safe` (lines 37-61).  The length check
precedes tokenization; `shlex.split(command.lower())` may raise
`ValueError` (the `.error` case), which the Python function does not
catch; a non-empty token list with a blocked head rejects; then the
pattern and character checks run on the raw string. -/
def is_command_safe (command : String) : Except String (Bool × String) :=
  if command.length > MAX_COMMAND_LENGTH then
    .ok (false, "Command too long (max " ++ toString MAX_COMMAND_LENGTH ++ " characters)")
  else
    match shlexSplit (pyLower command) with
    | .error e => .error e
    | .ok parts =>
        match parts.head? with
        | some t =>
            if t ∈ BLOCKED_COMMANDS then .ok (false, "Blocked command: " ++ t)
            else .ok (patternAndCharCheck command)
        | none => .ok (patternAndCharCheck command)

/-! ## Execution Runner -/

/-- Filesystem facts about one path, as queried through
`Path(p).exists()` and `Path(p).is_dir()`. -/
structure FsInfo where
  pathExists : Bool
  pathIsDir : Bool
deriving Repr, DecidableEq

/-- The outcome of the spawned subprocess, as decided by the operating
system: normal completion with an exit status and decoded output streams
(byte decoding with `errors` set to replace never raises, so the decoded
texts are taken as given), expiry of the `asyncio.wait_for` deadline, or
an exception from the spawn machinery itself. -/
inductive ExecOutcome where
  | completed (returncode : Int) (stdout stderr : String)
  | timedOut
  | spawnFailure (message : String)
deriving Repr, DecidableEq

/-- The oracle for everything `execute_bash_command` observes of its
environment: `os.environ.get`, `os.getcwd()`, path queries, and the fate
of the subprocess. -/
structure World where
  getEnvVar : String → Option String
  cwd : String
  fs : String → FsInfo
  run : ExecOutcome

/-- Lifecycle status of the child process at the end of the call. -/
inductive ProcStatus where
  | notSpawned
  | running
  | killed
  | reaped
deriving Repr, DecidableEq

/-- `process.kill()`: terminates a running process (it is then a zombie
until waited on). -/
def procKill : ProcStatus → ProcStatus
  | .running => .killed
  | s => s

/-- `await process.wait()` / the wait inside `communicate()`: reaps the
process once it has terminated. -/
def procWait : ProcStatus → ProcStatus
  | .running => .reaped
  | .killed => .reaped
  | s => s

/-- Whether the child process is still running. -/
def procIsRunning : ProcStatus → Bool
  | .running => true
  | _ => false

/-- The result dictionary built by `execute_bash_command`; a missing
`"error"` key is `none`. -/
structure ExecResult where
  success : Bool
  stdout : String
  stderr : String
  return_code : Int
  command : String
  working_dir : String
  error : Option String
deriving Repr, DecidableEq

/-- The arguments passed to `asyncio.create_subprocess_shell`. -/
structure SpawnRecord where
  cmd : String
  cwdArg : Option String
  env : List (String × String)
deriving Repr, DecidableEq

/-- Observable trace of one call: the returned dictionary (`none` when an
uncaught exception propagates to the caller instead), whether and how the
subprocess layer was invoked, and the final process status. -/
structure CallTrace where
  result : Option ExecResult
  spawned : Option SpawnRecord
  proc : ProcStatus
deriving Repr, DecidableEq

/-- Python's `working_dir or os.getcwd()`: the empty string is falsy. -/
def orCwd (working_dir : Option String) (cwd : String) : String :=
  match working_dir with
  | some d => if d = "" then cwd else d
  | none => cwd

/-- Truthiness of the optional `working_dir` argument
(`if working_dir:`). -/
def wdGiven : Option String → Bool
  | some d => !(d == "")
  | none => false

/-- Python's `str.strip()` whitespace characters (ASCII portion). -/
def pyWsChar (c : Char) : Bool :=
  c = ' ' || c = Char.ofNat 9 || c = Char.ofNat 10 || c = Char.ofNat 13
    || c = Char.ofNat 11 || c = Char.ofNat 12

/-- Python's `str.strip()`. -/
def pyStrip (s : String) : String :=
  String.mk (((s.data.dropWhile pyWsChar).reverse.dropWhile pyWsChar).reverse)

/-- The environment dictionary passed to the child (lines 123-128): a
fixed projection of the parent environment, with `PWD` set to
`working_dir or os.getcwd()`. -/
def childEnv (w : World) (working_dir : Option String) : List (String × String) :=
  [("PATH", (w.getEnvVar "PATH").getD ""),
   ("HOME", (w.getEnvVar "HOME").getD ""),
   ("USER", (w.getEnvVar "USER").getD ""),
   ("PWD", orCwd working_dir w.cwd)]

/-- The `try` block of `execute_bash_command` (lines 111-182): spawn,
race against the deadline, decode-and-strip on completion, kill-and-wait
then report on timeout, and the catch-all mapping any spawn exception to
a structured failure. -/
def runPhase (w : World) (command : String) (working_dir : Option String) : CallTrace :=
  match w.run with
  | .spawnFailure msg =>
      { result := some
          { success := false
            error := some ("Execution error: " ++ msg)
            stdout := "", stderr := "", return_code := -1
            command := command, working_dir := orCwd working_dir w.cwd }
        spawned := some { cmd := command, cwdArg := working_dir, env := childEnv w working_dir }
        proc := .notSpawned }
  | .timedOut =>
      { result := some
          { success := false
            error := some ("Command timed out after " ++ toString TIMEOUT_SECONDS ++ " seconds")
            stdout := "", stderr := "", return_code := -1
            command := command, working_dir := orCwd working_dir w.cwd }
        spawned := some { cmd := command, cwdArg := working_dir, env := childEnv w working_dir }
        proc := procWait (procKill .running) }
  | .completed rc out err =>
      { result := some
          { success := decide (rc = 0)
            stdout := pyStrip out
            stderr := pyStrip err
            return_code := rc
            command := command
            working_dir := orCwd working_dir w.cwd
            error := if rc = 0 then none
                     else some ("Command failed with return code " ++ toString rc) }
        spawned := some { cmd := command, cwdArg := working_dir, env := childEnv w working_dir }
        proc := procWait .running }

/-- `execute_bash_command` (lines 63-182).  The gate runs first and its
`ValueError` on malformed quoting is raised before the `try` block, so it
propagates (`result := none`).  A gate rejection or an invalid working
directory returns a structured failure without touching the subprocess
layer; otherwise the runner phase executes. -/
def execute_bash_command (w : World) (command : String) (working_dir : Option String) : CallTrace :=
  match is_command_safe command with
  | .error _ => { result := none, spawned := none, proc := .notSpawned }
  | .ok (isSafe, reason) =>
      if isSafe then
        if wdGiven working_dir then
          if (w.fs (working_dir.getD "")).pathExists = false then
            { result := some
                { success := false
                  error := some ("Working directory does not exist: " ++ working_dir.getD "")
                  stdout := "", stderr := "", return_code := -1
                  command := command, working_dir := working_dir.getD "" }
              spawned := none, proc := .notSpawned }
          else if (w.fs (working_dir.getD "")).pathIsDir = false then
            { result := some
                { success := false
                  error := some ("Working directory path is not a directory: " ++ working_dir.getD "")
                  stdout := "", stderr := "", return_code := -1
                  command := command, working_dir := working_dir.getD "" }
              spawned := none, proc := .notSpawned }
          else runPhase w command working_dir
        else runPhase w command working_dir
      else
        { result := some
            { success := false
              error := some ("Command blocked for security: " ++ reason)
              stdout := "", stderr := "", return_code := -1
              command := command, working_dir := orCwd working_dir w.cwd }
          spawned := none, proc := .notSpawned }

/-- Whether the given working-directory argument passes validation in
world `w` (vacuously when absent or falsy). -/
def wdOk (w : World) (working_dir : Option String) : Bool :=
  !wdGiven working_dir
    || ((w.fs (working_dir.getD "")).pathExists && (w.fs (working_dir.getD "")).pathIsDir)

/-! ## Concrete worlds and inputs used in instantiations -/

/-- A world where every path exists and is a directory and the subprocess
exits cleanly with no output. -/
def plainWorld : World :=
  { getEnvVar := fun _ => none
    cwd := "/srv"
    fs := fun _ => { pathExists := true, pathIsDir := true }
    run := .completed 0 "" "" }

/-- A world where no path exists. -/
def missingDirWorld : World :=
  { getEnvVar := fun _ => none
    cwd := "/srv"
    fs := fun _ => { pathExists := false, pathIsDir := false }
    run := .completed 0 "" "" }

/-- A world where every path exists but none is a directory. -/
def notDirWorld : World :=
  { getEnvVar := fun _ => none
    cwd := "/srv"
    fs := fun _ => { pathExists := true, pathIsDir := false }
    run := .completed 0 "" "" }

/-- A world whose subprocess outlives the deadline. -/
def timeoutWorld : World :=
  { getEnvVar := fun _ => none
    cwd := "/srv"
    fs := fun _ => { pathExists := true, pathIsDir := true }
    run := .timedOut }

/-- A world with a populated parent environment, including a variable
(`AWS_SECRET_ACCESS_KEY`) that must not reach the child. -/
def envWorld : World :=
  { getEnvVar := fun n =>
      if n = "PATH" then some "/usr/bin" else
      if n = "HOME" then some "/root" else
      if n = "USER" then some "root" else
      if n = "AWS_SECRET_ACCESS_KEY" then some "hunter2" else none
    cwd := "/srv"
    fs := fun _ => { pathExists := true, pathIsDir := true }
    run := .completed 0 "ok" "" }

/-- `echo 'unclosed` — a command with an unmatched single quote. -/
def malformedCmd : String := "echo " ++ String.singleton squote ++ "unclosed"

/-- A 1001-character command that additionally has an unmatched quote, so
it can only be rejected without tokenizing. -/
def overlongCmd : String := String.mk (squote :: List.replicate 1000 'a')

/-- The result `execute_bash_command` produces in `plainWorld` for the
approved command `true` with no working directory. -/
def trueResult : ExecResult :=
  { success := true, stdout := "", stderr := "", return_code := 0
    command := "true", working_dir := "/srv", error := none }

/-! ## Helper lemmas -/

/-- Once the gate approves and the working directory validates, the call
is exactly the runner phase. -/
theorem exec_reaches_runner (w : World) (cmd : String) (wd : Option String)
    (hsafe : is_command_safe cmd = .ok (true, ""))
    (hwd : wdOk w wd = true) :
    execute_bash_command w cmd wd = runPhase w cmd wd := by
  unfold execute_bash_command
  rw [hsafe]
  unfold wdOk at hwd
  cases hg : wdGiven wd with
  | false => simp [hg]
  | true =>
      rw [hg] at hwd
      simp only [Bool.not_true, Bool.false_or, Bool.and_eq_true] at hwd
      simp [hg, hwd.1, hwd.2]

/-! ## Claims -/

/-- Claim C8: every command longer than `MAX_COMMAND_LENGTH` is rejected
by the length check, whose reason cites the limit, before any
tokenization is attempted — the conclusion holds for every string,
including ones `shlex.split` would fail on. -/
theorem gate_rejects_overlong_before_tokenizing (cmd : String)
    (h : cmd.length > MAX_COMMAND_LENGTH) :
    is_command_safe cmd = .ok (false, "Command too long (max 1000 characters)") := by
  unfold is_command_safe
  rw [if_pos h]
  rfl

set_option maxRecDepth 8192 in
/-- Witness for C8: a 1001-character command with an unmatched quote —
untokenizable, yet rejected for length. -/
theorem gate_rejects_overlong_before_tokenizing_witness :
    overlongCmd.length > MAX_COMMAND_LENGTH ∧
    is_command_safe overlongCmd = .ok (false, "Command too long (max 1000 characters)") :=
  ⟨by decide, gate_rejects_overlong_before_tokenizing overlongCmd (by decide)⟩

/-- Claim C2: a command within the length limit whose first token (after
shell-quoting-aware splitting of the lower-cased command, i.e.,
case-insensitive matching) is in `BLOCKED_COMMANDS` is rejected whatever
its remaining arguments `ts`, and the reason names the blocked command. -/
theorem gate_rejects_blocked_first_token (cmd t : String) (ts : List String)
    (hlen : cmd.length ≤ MAX_COMMAND_LENGTH)
    (htok : shlexSplit (pyLower cmd) = .ok (t :: ts))
    (hblk : t ∈ BLOCKED_COMMANDS) :
    is_command_safe cmd = .ok (false, "Blocked command: " ++ t) := by
  unfold is_command_safe
  rw [if_neg (by omega), htok]
  simp [List.head?, hblk]

/-- Witness for C2: `rm -rf /`. -/
theorem gate_rejects_blocked_first_token_witness :
    ("rm -rf /").length ≤ MAX_COMMAND_LENGTH ∧
    shlexSplit (pyLower "rm -rf /") = .ok ["rm", "-rf", "/"] ∧
    "rm" ∈ BLOCKED_COMMANDS ∧
    is_command_safe "rm -rf /" = .ok (false, "Blocked command: " ++ "rm") :=
  ⟨by decide, by rfl, by decide,
   gate_rejects_blocked_first_token "rm -rf /" "rm" ["-rf", "/"] (by decide) (by rfl) (by decide)⟩

/-- Claim C7: whenever the gate rejects (returns `(False, reason)`), the
call returns the structured failure immediately — `success=false`,
`return_code=-1`, empty outputs, the error giving the rejection reason —
with no spawn attempted, in every world `w`. -/
theorem gate_rejection_short_circuits (w : World) (cmd : String) (wd : Option String)
    (reason : String)
    (h : is_command_safe cmd = .ok (false, reason)) :
    execute_bash_command w cmd wd =
      { result := some
          { success := false
            error := some ("Command blocked for security: " ++ reason)
            stdout := "", stderr := "", return_code := -1
            command := cmd, working_dir := orCwd wd w.cwd }
        spawned := none, proc := .notSpawned } := by
  unfold execute_bash_command
  rw [h]
  rfl

/-- Witness for C7: `sudo ls` in `plainWorld`. -/
theorem gate_rejection_short_circuits_witness :
    is_command_safe "sudo ls" = .ok (false, "Blocked command: sudo") ∧
    execute_bash_command plainWorld "sudo ls" none =
      { result := some
          { success := false
            error := some ("Command blocked for security: " ++ "Blocked command: sudo")
            stdout := "", stderr := "", return_code := -1
            command := "sudo ls", working_dir := orCwd none plainWorld.cwd }
        spawned := none, proc := .notSpawned } :=
  ⟨by rfl, gate_rejection_short_circuits plainWorld "sudo ls" none "Blocked command: sudo" (by rfl)⟩

/-- Claim C1 (code bug): on a command with malformed quoting the gate
does not return a rejection — the `ValueError` from `shlex.split`
escapes `is_command_safe` (the `.error` case) and propagates out of
`execute_bash_command` as an unstructured fault (`result = none`),
because the gate is called before the `try` block begins. -/
theorem malformed_quoting_raises :
    is_command_safe malformedCmd = .error "No closing quotation" ∧
    (execute_bash_command plainWorld malformedCmd none).result = none ∧
    (execute_bash_command plainWorld malformedCmd none).spawned = none := by
  exact ⟨by rfl, by rfl, by rfl⟩

/-- Shared shape of the pattern-check rejection: under the hypotheses of
the substring check being reached, the gate reports the first matching
pattern. -/
theorem pattern_reject_aux (cmd p : String) (parts : List String)
    (hlen : cmd.length ≤ MAX_COMMAND_LENGTH)
    (htok : shlexSplit (pyLower cmd) = .ok parts)
    (hhead : ∀ t, parts.head? = some t → t ∉ BLOCKED_COMMANDS)
    (hfind : BLOCKED_PATTERNS.find? (fun q => pyContains cmd q) = some p) :
    is_command_safe cmd = .ok (false, "Blocked pattern detected: " ++ p) := by
  unfold is_command_safe
  rw [if_neg (by omega), htok]
  cases hp : parts.head? with
  | none =>
      simp only [hp]
      unfold patternAndCharCheck
      rw [hfind]
  | some t =>
      simp only [hp]
      rw [if_neg (hhead t hp)]
      unfold patternAndCharCheck
      rw [hfind]

/-- Claim C3: a command within the length limit, tokenizable with an
unblocked first token, that contains a blocked pattern — `p` being the
first matching entry of `BLOCKED_PATTERNS` in list order, as `List.find?`
returns — is rejected with the reason naming `p`. -/
theorem gate_rejects_blocked_pattern (cmd p : String) (parts : List String)
    (hlen : cmd.length ≤ MAX_COMMAND_LENGTH)
    (htok : shlexSplit (pyLower cmd) = .ok parts)
    (hhead : ∀ t, parts.head? = some t → t ∉ BLOCKED_COMMANDS)
    (hfind : BLOCKED_PATTERNS.find? (fun q => pyContains cmd q) = some p) :
    is_command_safe cmd = .ok (false, "Blocked pattern detected: " ++ p) :=
  pattern_reject_aux cmd p parts hlen htok hhead hfind

/-- Witness for C3: `echo a && echo b` is rejected for the chaining
pattern `&&`. -/
theorem gate_rejects_blocked_pattern_witness :
    BLOCKED_PATTERNS.find? (fun q => pyContains "echo a && echo b" q) = some "&&" ∧
    is_command_safe "echo a && echo b" = .ok (false, "Blocked pattern detected: " ++ "&&") :=
  ⟨by rfl,
   gate_rejects_blocked_pattern "echo a && echo b" "&&" ["echo", "a", "&&", "echo", "b"]
     (by decide) (by rfl)
     (by intro t h; simp only [List.head?, Option.some.injEq] at h; rw [← h]; decide)
     (by rfl)⟩

/-- Counterexample to C10 as stated: `eval x.y` is within the length
limit, its first token `eval` is not a blocked command, it contains the
period character — yet the rejection reason names the earlier-listed
pattern `eval`, not `.`. -/
theorem dot_pattern_reason_counterexample :
    ("eval x.y").length ≤ MAX_COMMAND_LENGTH ∧
    shlexSplit (pyLower "eval x.y") = .ok ["eval", "x.y"] ∧
    ("eval" ∉ BLOCKED_COMMANDS) ∧
    pyContains "eval x.y" "." = true ∧
    is_command_safe "eval x.y" = .ok (false, "Blocked pattern detected: eval") ∧
    ("Blocked pattern detected: eval" ≠ "Blocked pattern detected: .") :=
  ⟨by decide, by rfl, by decide, by rfl, by rfl, by decide⟩

/-- Claim C10 (amended): a command within the length limit, tokenizable
with an unblocked first token, that contains the period character is
always rejected — `.` is an entry of `BLOCKED_PATTERNS` — with the reason
naming the first matching pattern in list order; that pattern is `.`
itself whenever no earlier-listed pattern also occurs in the command
(so, e.g., `echo 3.14` and `cat notes.txt` are rejected naming `.`). -/
theorem gate_rejects_dot_commands (cmd : String) (parts : List String)
    (hlen : cmd.length ≤ MAX_COMMAND_LENGTH)
    (htok : shlexSplit (pyLower cmd) = .ok parts)
    (hhead : ∀ t, parts.head? = some t → t ∉ BLOCKED_COMMANDS)
    (hdot : pyContains cmd "." = true) :
    is_command_safe cmd
      = .ok (false, "Blocked pattern detected: "
          ++ ((BLOCKED_PATTERNS.find? (fun q => pyContains cmd q)).getD ".")) ∧
    ((∀ q ∈ (["&&", "||", ";", "|", ">", ">>", "<", "`", "$(",
              "eval", "exec", "source"] : List String),
        pyContains cmd q = false) →
      BLOCKED_PATTERNS.find? (fun q => pyContains cmd q) = some ".") := by
  have hsome : BLOCKED_PATTERNS.find? (fun q => pyContains cmd q) ≠ none := by
    intro hnone
    rw [List.find?_eq_none] at hnone
    exact absurd hdot (by simpa using hnone "." (by decide))
  constructor
  · obtain ⟨p, hp⟩ := Option.ne_none_iff_exists'.mp hsome
    rw [hp, Option.getD_some]
    exact pattern_reject_aux cmd p parts hlen htok hhead hp
  · intro hq
    have h1 := hq "&&" (by decide)
    have h2 := hq "||" (by decide)
    have h3 := hq ";" (by decide)
    have h4 := hq "|" (by decide)
    have h5 := hq ">" (by decide)
    have h6 := hq ">>" (by decide)
    have h7 := hq "<" (by decide)
    have h8 := hq "`" (by decide)
    have h9 := hq "$(" (by decide)
    have h10 := hq "eval" (by decide)
    have h11 := hq "exec" (by decide)
    have h12 := hq "source" (by decide)
    unfold BLOCKED_PATTERNS
    rw [List.find?_cons_of_neg _ (by simp [h1]),
        List.find?_cons_of_neg _ (by simp [h2]),
        List.find?_cons_of_neg _ (by simp [h3]),
        List.find?_cons_of_neg _ (by simp [h4]),
        List.find?_cons_of_neg _ (by simp [h5]),
        List.find?_cons_of_neg _ (by simp [h6]),
        List.find?_cons_of_neg _ (by simp [h7]),
        List.find?_cons_of_neg _ (by simp [h8]),
        List.find?_cons_of_neg _ (by simp [h9]),
        List.find?_cons_of_neg _ (by simp [h10]),
        List.find?_cons_of_neg _ (by simp [h11]),
        List.find?_cons_of_neg _ (by simp [h12]),
        List.find?_cons_of_pos _ (by simp [hdot])]

/-- Witness for C10 (amended): `echo 3.14` is rejected, the first match
is `.`, and the reason names `.`. -/
theorem gate_rejects_dot_commands_witness :
    is_command_safe "echo 3.14"
      = .ok (false, "Blocked pattern detected: "
          ++ ((BLOCKED_PATTERNS.find? (fun q => pyContains "echo 3.14" q)).getD ".")) ∧
    BLOCKED_PATTERNS.find? (fun q => pyContains "echo 3.14" q) = some "." :=
  ⟨(gate_rejects_dot_commands "echo 3.14" ["echo", "3.14"] (by decide) (by rfl)
      (by intro t h; simp only [List.head?, Option.some.injEq] at h; rw [← h]; decide)
      (by rfl)).1,
   (gate_rejects_dot_commands "echo 3.14" ["echo", "3.14"] (by decide) (by rfl)
      (by intro t h; simp only [List.head?, Option.some.injEq] at h; rw [← h]; decide)
      (by rfl)).2 (by decide)⟩

/-- Counterexample to C6 as stated: the Safety Gate runs before the
working-directory check, so a call whose command is blocked (`rm -rf /`)
and whose `working_directory` does not exist (`/data/nope` in
`missingDirWorld`, where no path exists) reports the security reason,
which does not say the directory does not exist. -/
theorem wd_missing_reason_counterexample :
    (missingDirWorld.fs "/data/nope").pathExists = false ∧
    (execute_bash_command missingDirWorld "rm -rf /" (some "/data/nope")).result =
      some { success := false, stdout := "", stderr := "", return_code := -1,
             command := "rm -rf /", working_dir := "/data/nope",
             error := some "Command blocked for security: Blocked command: rm" } ∧
    pyContains "Command blocked for security: Blocked command: rm" "does not exist" = false :=
  ⟨by rfl, by rfl, by rfl⟩

/-- Claim C6 (amended): for every call whose command passes the Safety
Gate, a `working_directory` pointing at a non-existent path yields
`success=false`, `return_code=-1`, a "does not exist" reason, and the
Execution Runner is never invoked; an existing non-directory path yields
the distinct "is not a directory" reason, likewise without spawning; and
the two reasons differ for the same path. -/
theorem wd_validation_distinguishes (w w2 : World) (cmd d : String)
    (hsafe : is_command_safe cmd = .ok (true, ""))
    (hne : d ≠ "")
    (hmiss : (w.fs d).pathExists = false)
    (hex : (w2.fs d).pathExists = true)
    (hnd : (w2.fs d).pathIsDir = false) :
    execute_bash_command w cmd (some d) =
      { result := some
          { success := false, stdout := "", stderr := "", return_code := -1,
            command := cmd, working_dir := d,
            error := some ("Working directory does not exist: " ++ d) },
        spawned := none, proc := .notSpawned } ∧
    execute_bash_command w2 cmd (some d) =
      { result := some
          { success := false, stdout := "", stderr := "", return_code := -1,
            command := cmd, working_dir := d,
            error := some ("Working directory path is not a directory: " ++ d) },
        spawned := none, proc := .notSpawned } ∧
    ("Working directory does not exist: " ++ d) ≠
      ("Working directory path is not a directory: " ++ d) := by
  refine ⟨?_, ?_, ?_⟩
  · unfold execute_bash_command
    rw [hsafe]
    simp [wdGiven, hne, hmiss]
  · unfold execute_bash_command
    rw [hsafe]
    simp [wdGiven, hne, hex, hnd]
  · intro hcontra
    have hlen := congrArg String.length hcontra
    rw [String.length_append, String.length_append] at hlen
    have h1 : ("Working directory does not exist: ").length = 34 := by decide
    have h2 : ("Working directory path is not a directory: ").length = 43 := by decide
    omega

/-- Witness for C6 (amended): `pwd` with `/data/nope` in
`missingDirWorld` and in `notDirWorld`. -/
theorem wd_validation_distinguishes_witness :
    execute_bash_command missingDirWorld "pwd" (some "/data/nope") =
      { result := some
          { success := false, stdout := "", stderr := "", return_code := -1,
            command := "pwd", working_dir := "/data/nope",
            error := some ("Working directory does not exist: " ++ "/data/nope") },
        spawned := none, proc := .notSpawned } ∧
    execute_bash_command notDirWorld "pwd" (some "/data/nope") =
      { result := some
          { success := false, stdout := "", stderr := "", return_code := -1,
            command := "pwd", working_dir := "/data/nope",
            error := some ("Working directory path is not a directory: " ++ "/data/nope") },
        spawned := none, proc := .notSpawned } ∧
    ("Working directory does not exist: " ++ "/data/nope") ≠
      ("Working directory path is not a directory: " ++ "/data/nope") :=
  wd_validation_distinguishes missingDirWorld notDirWorld "pwd" "/data/nope"
    (by rfl) (by decide) (by rfl) (by rfl) (by rfl)

/-- Claim C4: when the deadline elapses first, the call reports
`success=false`, `return_code=-1`, an error mentioning the timeout, and
the child process — killed and then awaited — is reaped and no longer
running when the call returns. -/
theorem timeout_reports_and_reaps (w : World) (cmd : String) (wd : Option String)
    (hsafe : is_command_safe cmd = .ok (true, ""))
    (hwd : wdOk w wd = true)
    (hrun : w.run = .timedOut) :
    (execute_bash_command w cmd wd).result =
      some { success := false, stdout := "", stderr := "", return_code := -1,
             command := cmd, working_dir := orCwd wd w.cwd,
             error := some "Command timed out after 30 seconds" } ∧
    pyContains "Command timed out after 30 seconds" "timed out" = true ∧
    (execute_bash_command w cmd wd).proc = procWait (procKill .running) ∧
    procIsRunning (execute_bash_command w cmd wd).proc = false := by
  rw [exec_reaches_runner w cmd wd hsafe hwd]
  unfold runPhase
  rw [hrun]
  exact ⟨rfl, rfl, rfl, rfl⟩

/-- Witness for C4: `sleep 60` in `timeoutWorld`. -/
theorem timeout_reports_and_reaps_witness :
    (execute_bash_command timeoutWorld "sleep 60" none).result =
      some { success := false, stdout := "", stderr := "", return_code := -1,
             command := "sleep 60", working_dir := orCwd none timeoutWorld.cwd,
             error := some "Command timed out after 30 seconds" } ∧
    pyContains "Command timed out after 30 seconds" "timed out" = true ∧
    (execute_bash_command timeoutWorld "sleep 60" none).proc = procWait (procKill .running) ∧
    procIsRunning (execute_bash_command timeoutWorld "sleep 60" none).proc = false :=
  timeout_reports_and_reaps timeoutWorld "sleep 60" none (by rfl) (by rfl) (by rfl)

/-- In every branch of the runner phase, the `error` field is present
exactly when `success` is false. -/
theorem runPhase_error_iff (w : World) (cmd : String) (wd : Option String) (r : ExecResult)
    (h : (runPhase w cmd wd).result = some r) :
    (r.error ≠ none ↔ r.success = false) := by
  unfold runPhase at h
  cases hrun : w.run with
  | spawnFailure msg =>
      rw [hrun] at h
      simp only [Option.some.injEq] at h
      rw [← h]
      simp
  | timedOut =>
      rw [hrun] at h
      simp only [Option.some.injEq] at h
      rw [← h]
      simp
  | completed rc out err =>
      rw [hrun] at h
      simp only [Option.some.injEq] at h
      rw [← h]
      by_cases hrc : rc = 0 <;> simp [hrc]

/-- Claim C5: in every result the core actually returns, `error` is
non-null exactly when `success=false`; and for an approved command in a
valid directory whose process exits with code 0 and no output, the
result is `success=true`, empty `stdout` and `stderr`, `return_code=0`,
`error=null`. -/
theorem result_error_iff_failure (w : World) (cmd : String) (wd : Option String) (r : ExecResult)
    (h : (execute_bash_command w cmd wd).result = some r) :
    (r.error ≠ none ↔ r.success = false) ∧
    (is_command_safe cmd = .ok (true, "") → wdOk w wd = true →
      w.run = .completed 0 "" "" →
      r = { success := true, stdout := "", stderr := "", return_code := 0,
            command := cmd, working_dir := orCwd wd w.cwd, error := none }) := by
  constructor
  · unfold execute_bash_command at h
    split at h
    · simp at h
    · split at h
      · split at h
        · split at h
          · simp only [Option.some.injEq] at h
            rw [← h]
            simp
          · split at h
            · simp only [Option.some.injEq] at h
              rw [← h]
              simp
            · exact runPhase_error_iff w cmd wd r h
        · exact runPhase_error_iff w cmd wd r h
      · simp only [Option.some.injEq] at h
        rw [← h]
        simp
  · intro hsafe hwd hrun
    rw [exec_reaches_runner w cmd wd hsafe hwd] at h
    unfold runPhase at h
    rw [hrun] at h
    simp only [Option.some.injEq] at h
    rw [← h]
    rfl

/-- Witness for C5: the approved command `true` in `plainWorld`. -/
theorem result_error_iff_failure_witness :
    (trueResult.error ≠ none ↔ trueResult.success = false) ∧
    trueResult = { success := true, stdout := "", stderr := "", return_code := 0,
                   command := "true", working_dir := orCwd none plainWorld.cwd,
                   error := none } :=
  ⟨(result_error_iff_failure plainWorld "true" none trueResult (by rfl)).1,
   (result_error_iff_failure plainWorld "true" none trueResult (by rfl)).2
     (by rfl) (by rfl) (by rfl)⟩

/-- Claim C9: when an approved command in a valid directory reaches the
spawn, the environment handed to the child consists of exactly the keys
`PATH`, `HOME`, `USER`, `PWD` — all other parent variables are stripped —
with `PWD` the resolved working directory and the other three taken from
the parent (defaulting to the empty string). -/
theorem child_env_restricted (w : World) (cmd : String) (wd : Option String)
    (hsafe : is_command_safe cmd = .ok (true, ""))
    (hwd : wdOk w wd = true) :
    (execute_bash_command w cmd wd).spawned =
      some { cmd := cmd, cwdArg := wd, env := childEnv w wd } ∧
    (childEnv w wd).map Prod.fst = ["PATH", "HOME", "USER", "PWD"] ∧
    (childEnv w wd).lookup "PWD" = some (orCwd wd w.cwd) ∧
    (childEnv w wd).lookup "PATH" = some ((w.getEnvVar "PATH").getD "") ∧
    (childEnv w wd).lookup "HOME" = some ((w.getEnvVar "HOME").getD "") ∧
    (childEnv w wd).lookup "USER" = some ((w.getEnvVar "USER").getD "") := by
  rw [exec_reaches_runner w cmd wd hsafe hwd]
  refine ⟨?_, rfl, rfl, rfl, rfl, rfl⟩
  unfold runPhase
  cases w.run <;> rfl

/-- Witness for C9: `ls -la` in `/tmp` under `envWorld`, whose parent
environment also holds `AWS_SECRET_ACCESS_KEY` — absent from the child
keys. -/
theorem child_env_restricted_witness :
    (execute_bash_command envWorld "ls -la" (some "/tmp")).spawned =
      some { cmd := "ls -la", cwdArg := some "/tmp",
             env := childEnv envWorld (some "/tmp") } ∧
    (childEnv envWorld (some "/tmp")).map Prod.fst = ["PATH", "HOME", "USER", "PWD"] ∧
    (childEnv envWorld (some "/tmp")).lookup "PWD" = some (orCwd (some "/tmp") envWorld.cwd) ∧
    (childEnv envWorld (some "/tmp")).lookup "PATH" = some ((envWorld.getEnvVar "PATH").getD "") ∧
    (childEnv envWorld (some "/tmp")).lookup "HOME" = some ((envWorld.getEnvVar "HOME").getD "") ∧
    (childEnv envWorld (some "/tmp")).lookup "USER" = some ((envWorld.getEnvVar "USER").getD "") :=
  child_env_restricted envWorld "ls -la" (some "/tmp") (by rfl) (by rfl)
